import Mathlib

/-!
Verification of the ClearPath-SC single-threaded example bring-up sequence
(`main.cpp`) and the Linux OS shim (`lnkAccessLinux.cpp`).

The example program is shallowly embedded: nodes carry the attributes the
program queries (node type, access level), the validation loop of `main` is
state passing over a `LoopState`, and observable actions (checks evaluated,
axes constructed, AxisMain calls, teardown steps, output diagnostics) are
recorded as explicit event traces so that ordering and occurrence claims can
be stated.
-/

/-- Node types as discriminated by `theNode.Info.NodeType()`; any type other
than the two ClearPath-SC ones is collapsed into `GENERIC` with a code. -/
inductive NodeType where
  | CLEARPATH_SC_ADV
  | CLEARPATH_SC
  | GENERIC (code : Nat)
deriving DecidableEq, Repr

/-- The attributes of an `INode` that the example reads: its type and whether
`theNode.Setup.AccessLevelIsFull()` holds. -/
structure INode where
  nodeType : NodeType
  accessLevelIsFull : Bool
deriving DecidableEq, Repr

instance : Inhabited INode := ⟨⟨NodeType.CLEARPATH_SC, true⟩⟩

/-- `new Axis(&theNode)`: the per-node control object, recording its node. -/
structure Axis where
  node : INode
deriving DecidableEq, Repr

/-- The mismatch test of main.cpp lines 159-160:
`NodeType() != CLEARPATH_SC_ADV && NodeType() != CLEARPATH_SC`. -/
def nodeTypeMismatch (theNode : INode) : Bool :=
  decide (theNode.nodeType ≠ NodeType.CLEARPATH_SC_ADV) &&
  decide (theNode.nodeType ≠ NodeType.CLEARPATH_SC)

/-- Observable actions of the example program. -/
inductive Event where
  | comHubPort (p : Nat)
  | portsOpenCall
  | nodeQueried (p i : Nat)
  | typeCheck (i : Nat)
  | typeMismatchDiag (i : Nat)
  | axisConstructed (i : Nat)
  | accessCheck (i : Nat)
  | axisMainCall (i : Nat)
  | axisDelete (i : Nat)
  | portsCloseCall
deriving DecidableEq, Repr

/-- The structured error object thrown by the driver (`mnErr`). -/
structure MnErr where
  TheAddr : Int
  ErrorCode : Nat
  ErrorMsg : String
deriving DecidableEq, Repr

/-- An exception escaping a driver call: either a structured `mnErr` or
anything else (caught by `catch (...)`). -/
inductive Thrown where
  | structured (e : MnErr)
  | generic
deriving DecidableEq, Repr

/-- Diagnostic messages on the output streams that the claims talk about. -/
inductive Msg where
  | usage
  | portSetupDiag (e : MnErr)
  | initFail
  | failureNodeTypes
  | failureAccessLvls
  | topStructuredDiag (e : MnErr)
  | topGenericDiag
  | pressKey
deriving DecidableEq, Repr

/-- Mutable state of the node-validation loop of `main` (lines 138-176),
together with the trace of events it has produced. -/
structure LoopState where
  listOfAxes : List Axis
  nodeTypesGood : Bool
  accessLvlsGood : Bool
  events : List Event
deriving DecidableEq, Repr

/-- One iteration of the inner node loop (main.cpp lines 154-175): check the
node type (setting `nodeTypesGood` false and printing a diagnostic on
mismatch), and while `nodeTypesGood` still holds construct an Axis and check
the access level (setting `accessLvlsGood` false when not full). -/
def processNode (s : LoopState) (iNode : Nat) (theNode : INode) : LoopState :=
  let s1 :=
    if nodeTypeMismatch theNode then
      { s with nodeTypesGood := false,
               events := s.events ++ [Event.typeCheck iNode, Event.typeMismatchDiag iNode] }
    else
      { s with events := s.events ++ [Event.typeCheck iNode] }
  if s1.nodeTypesGood then
    let s2 := { s1 with
      listOfAxes := s1.listOfAxes ++ [⟨theNode⟩],
      events := s1.events ++ [Event.axisConstructed iNode, Event.accessCheck iNode] }
    if theNode.accessLevelIsFull then s2
    else { s2 with accessLvlsGood := false }
  else s1

/-- The node loop over the nodes of the (single) port, starting at index
`iNode`. -/
def runLoop (s : LoopState) (iNode : Nat) : List INode → LoopState
  | [] => s
  | n :: ns => runLoop (processNode s iNode n) (iNode + 1) ns

/-- Loop state at entry: empty axis list, both flags assumed good
(main.cpp line 142), no events yet. -/
def loopStart : LoopState :=
  { listOfAxes := [], nodeTypesGood := true, accessLvlsGood := true, events := [] }

/-- The longest prefix of the node list in which every node passes the type
check; axes are constructed exactly for these nodes. -/
def goodTake (nodes : List INode) : List INode :=
  nodes.takeWhile (fun n => !nodeTypeMismatch n)

theorem runLoop_nil (s : LoopState) (i : Nat) : runLoop s i [] = s := rfl

theorem runLoop_cons (s : LoopState) (i : Nat) (n : INode) (ns : List INode) :
    runLoop s i (n :: ns) = runLoop (processNode s i n) (i + 1) ns := rfl

theorem processNode_mismatch (s : LoopState) (i : Nat) (n : INode)
    (h : nodeTypeMismatch n = true) :
    processNode s i n =
      { s with nodeTypesGood := false,
               events := s.events ++ [Event.typeCheck i, Event.typeMismatchDiag i] } := by
  simp [processNode, h]

theorem processNode_ok_bad (s : LoopState) (i : Nat) (n : INode)
    (h : nodeTypeMismatch n = false) (hg : s.nodeTypesGood = false) :
    processNode s i n = { s with events := s.events ++ [Event.typeCheck i] } := by
  simp [processNode, h, hg]

theorem processNode_ok_good_full (s : LoopState) (i : Nat) (n : INode)
    (h : nodeTypeMismatch n = false) (hg : s.nodeTypesGood = true)
    (ha : n.accessLevelIsFull = true) :
    processNode s i n =
      { s with listOfAxes := s.listOfAxes ++ [⟨n⟩],
               events := s.events ++
                 [Event.typeCheck i, Event.axisConstructed i, Event.accessCheck i] } := by
  simp [processNode, h, hg, ha]

theorem processNode_ok_good_notFull (s : LoopState) (i : Nat) (n : INode)
    (h : nodeTypeMismatch n = false) (hg : s.nodeTypesGood = true)
    (ha : n.accessLevelIsFull = false) :
    processNode s i n =
      { s with listOfAxes := s.listOfAxes ++ [⟨n⟩],
               accessLvlsGood := false,
               events := s.events ++
                 [Event.typeCheck i, Event.axisConstructed i, Event.accessCheck i] } := by
  simp [processNode, h, hg, ha]

theorem processNode_nodeTypesGood (s : LoopState) (i : Nat) (n : INode) :
    (processNode s i n).nodeTypesGood = (s.nodeTypesGood && !nodeTypeMismatch n) := by
  cases hmm : nodeTypeMismatch n
  · cases hg : s.nodeTypesGood
    · rw [processNode_ok_bad s i n hmm hg]; simp [hg]
    · cases hacc : n.accessLevelIsFull
      · rw [processNode_ok_good_notFull s i n hmm hg hacc]; simp [hg]
      · rw [processNode_ok_good_full s i n hmm hg hacc]; simp [hg]
  · rw [processNode_mismatch s i n hmm]; simp

theorem runLoop_nodeTypesGood (ns : List INode) : ∀ (s : LoopState) (i : Nat),
    (runLoop s i ns).nodeTypesGood =
      (s.nodeTypesGood && ns.all (fun n => !nodeTypeMismatch n)) := by
  induction ns with
  | nil => intro s i; simp [runLoop]
  | cons n ns ih =>
    intro s i
    rw [runLoop_cons, ih, processNode_nodeTypesGood]
    simp [Bool.and_assoc]

theorem runLoop_badState (ns : List INode) : ∀ (s : LoopState) (i : Nat),
    s.nodeTypesGood = false →
    (runLoop s i ns).listOfAxes = s.listOfAxes ∧
    (runLoop s i ns).accessLvlsGood = s.accessLvlsGood := by
  induction ns with
  | nil => intro s i _; simp [runLoop]
  | cons n ns ih =>
    intro s i h
    rw [runLoop_cons]
    cases hmm : nodeTypeMismatch n
    · rw [processNode_ok_bad s i n hmm h]
      exact ih _ (i + 1) h
    · rw [processNode_mismatch s i n hmm]
      exact ih _ (i + 1) rfl

theorem goodTake_cons_ok (n : INode) (ns : List INode) (hmm : nodeTypeMismatch n = false) :
    goodTake (n :: ns) = n :: goodTake ns := by
  simp [goodTake, List.takeWhile_cons, hmm]

theorem goodTake_cons_mismatch (n : INode) (ns : List INode)
    (hmm : nodeTypeMismatch n = true) :
    goodTake (n :: ns) = [] := by
  simp [goodTake, List.takeWhile_cons, hmm]

theorem runLoop_goodState (ns : List INode) : ∀ (s : LoopState) (i : Nat),
    s.nodeTypesGood = true →
    (runLoop s i ns).listOfAxes = s.listOfAxes ++ (goodTake ns).map (fun n => Axis.mk n) ∧
    (runLoop s i ns).accessLvlsGood =
      (s.accessLvlsGood && (goodTake ns).all (fun n => n.accessLevelIsFull)) := by
  induction ns with
  | nil => intro s i _; simp [runLoop, goodTake]
  | cons n ns ih =>
    intro s i h
    rw [runLoop_cons]
    cases hmm : nodeTypeMismatch n
    · have hg : (processNode s i n).nodeTypesGood = true := by
        rw [processNode_nodeTypesGood, hmm, h]; rfl
      obtain ⟨h1, h2⟩ := ih (processNode s i n) (i + 1) hg
      rw [goodTake_cons_ok n ns hmm]
      cases hacc : n.accessLevelIsFull
      · rw [processNode_ok_good_notFull s i n hmm h hacc] at h1 h2 ⊢
        refine ⟨?_, ?_⟩
        · rw [h1]; simp
        · rw [h2]; simp [hacc]
      · rw [processNode_ok_good_full s i n hmm h hacc] at h1 h2 ⊢
        refine ⟨?_, ?_⟩
        · rw [h1]; simp
        · rw [h2]; simp [hacc]
    · have hg : (processNode s i n).nodeTypesGood = false := by
        rw [processNode_nodeTypesGood, hmm]; simp
      obtain ⟨h1, h2⟩ := runLoop_badState ns (processNode s i n) (i + 1) hg
      rw [processNode_mismatch s i n hmm] at h1 h2 ⊢
      rw [goodTake_cons_mismatch n ns hmm]
      refine ⟨?_, ?_⟩
      · rw [h1]; simp
      · rw [h2]; simp

/-- The events one loop iteration appends, as a function of the `nodeTypesGood`
flag at entry to that iteration. -/
def stepEvts (i : Nat) (good : Bool) (n : INode) : List Event :=
  if nodeTypeMismatch n then [Event.typeCheck i, Event.typeMismatchDiag i]
  else if good then
    [Event.typeCheck i, Event.axisConstructed i, Event.accessCheck i]
  else [Event.typeCheck i]

/-- The full event list of the node loop. -/
def loopEvts (i : Nat) (good : Bool) : List INode → List Event
  | [] => []
  | n :: ns => stepEvts i good n ++ loopEvts (i + 1) (good && !nodeTypeMismatch n) ns

theorem processNode_events (s : LoopState) (i : Nat) (n : INode) :
    (processNode s i n).events = s.events ++ stepEvts i s.nodeTypesGood n := by
  cases hmm : nodeTypeMismatch n
  · cases hg : s.nodeTypesGood
    · rw [processNode_ok_bad s i n hmm hg]; simp [stepEvts, hmm, hg]
    · cases hacc : n.accessLevelIsFull
      · rw [processNode_ok_good_notFull s i n hmm hg hacc]; simp [stepEvts, hmm, hg]
      · rw [processNode_ok_good_full s i n hmm hg hacc]; simp [stepEvts, hmm, hg]
  · rw [processNode_mismatch s i n hmm]; simp [stepEvts, hmm]

theorem runLoop_events (ns : List INode) : ∀ (s : LoopState) (i : Nat),
    (runLoop s i ns).events = s.events ++ loopEvts i s.nodeTypesGood ns := by
  induction ns with
  | nil => intro s i; simp [runLoop, loopEvts]
  | cons n ns ih =>
    intro s i
    rw [runLoop_cons, ih, processNode_events, processNode_nodeTypesGood]
    simp [loopEvts, List.append_assoc]

/-- Events that the node-validation loop itself can emit. -/
def Event.isNodeLoopEvt : Event → Bool
  | .typeCheck _ => true
  | .typeMismatchDiag _ => true
  | .axisConstructed _ => true
  | .accessCheck _ => true
  | _ => false

theorem stepEvts_shape (i : Nat) (g : Bool) (n : INode) (e : Event)
    (h : e ∈ stepEvts i g n) : e.isNodeLoopEvt = true := by
  cases hmm : nodeTypeMismatch n
  · cases g
    · simp [stepEvts, hmm] at h; subst h; rfl
    · simp [stepEvts, hmm] at h
      rcases h with rfl | rfl | rfl <;> rfl
  · simp [stepEvts, hmm] at h
    rcases h with rfl | rfl <;> rfl

theorem loopEvts_shape (ns : List INode) : ∀ (i : Nat) (g : Bool) (e : Event),
    e ∈ loopEvts i g ns → e.isNodeLoopEvt = true := by
  induction ns with
  | nil => intro i g e h; simp [loopEvts] at h
  | cons n ns ih =>
    intro i g e h
    rcases List.mem_append.mp h with h | h
    · exact stepEvts_shape i g n e h
    · exact ih _ _ _ h

theorem typeCheck_mem_loopEvts (ns : List INode) : ∀ (i : Nat) (g : Bool) (j : Nat),
    Event.typeCheck j ∈ loopEvts i g ns ↔ (i ≤ j ∧ j < i + ns.length) := by
  induction ns with
  | nil =>
    intro i g j
    simp only [loopEvts, List.length_nil, List.not_mem_nil, false_iff, not_and]
    omega
  | cons n ns ih =>
    intro i g j
    have hstep : Event.typeCheck j ∈ stepEvts i g n ↔ j = i := by
      cases hmm : nodeTypeMismatch n
      · cases g <;> simp [stepEvts, hmm]
      · simp [stepEvts, hmm]
    simp only [loopEvts, List.mem_append, hstep, ih, List.length_cons]
    constructor
    · rintro (rfl | ⟨h1, h2⟩) <;> omega
    · rintro ⟨h1, h2⟩
      rcases Nat.eq_or_lt_of_le h1 with heq | hlt
      · exact Or.inl heq.symm
      · exact Or.inr ⟨hlt, by omega⟩

theorem accessCheck_mem_loopEvts (ns : List INode) : ∀ (i : Nat) (g : Bool) (j : Nat),
    Event.accessCheck j ∈ loopEvts i g ns ↔
      (g = true ∧ i ≤ j ∧ j < i + (goodTake ns).length) := by
  induction ns with
  | nil =>
    intro i g j
    simp only [loopEvts, goodTake, List.takeWhile_nil, List.length_nil, List.not_mem_nil,
      false_iff, not_and]
    intro _
    omega
  | cons n ns ih =>
    intro i g j
    cases hmm : nodeTypeMismatch n
    · rw [goodTake_cons_ok n ns hmm]
      cases g
      · have hstep : Event.accessCheck j ∈ stepEvts i false n ↔ False := by
          simp [stepEvts, hmm]
        simp only [loopEvts, List.mem_append, hstep, hmm, Bool.not_false, Bool.false_and, ih]
        simp
      · have hstep : Event.accessCheck j ∈ stepEvts i true n ↔ j = i := by
          simp [stepEvts, hmm]
        have hgood : (true && !nodeTypeMismatch n) = true := by simp [hmm]
        simp only [loopEvts, List.mem_append, hstep, hgood, ih, List.length_cons]
        constructor
        · rintro (rfl | ⟨_, h1, h2⟩)
          · exact ⟨by trivial, le_refl _, by omega⟩
          · exact ⟨by trivial, by omega, by omega⟩
        · rintro ⟨_, h1, h2⟩
          rcases Nat.eq_or_lt_of_le h1 with heq | hlt
          · exact Or.inl heq.symm
          · exact Or.inr ⟨by trivial, hlt, by omega⟩
    · rw [goodTake_cons_mismatch n ns hmm]
      have hstep : ∀ g', Event.accessCheck j ∈ stepEvts i g' n ↔ False := by
        intro g'; simp [stepEvts, hmm]
      have hgood : (g && !nodeTypeMismatch n) = false := by simp [hmm]
      simp only [loopEvts, List.mem_append, hstep, hgood, ih, List.length_nil, false_or]
      constructor
      · rintro ⟨h, -, -⟩; cases h
      · rintro ⟨-, h1, h2⟩; omega

theorem axisConstructed_mem_loopEvts (ns : List INode) : ∀ (i : Nat) (g : Bool) (j : Nat),
    Event.axisConstructed j ∈ loopEvts i g ns ↔
      (g = true ∧ i ≤ j ∧ j < i + (goodTake ns).length) := by
  induction ns with
  | nil =>
    intro i g j
    simp only [loopEvts, goodTake, List.takeWhile_nil, List.length_nil, List.not_mem_nil,
      false_iff, not_and]
    intro _
    omega
  | cons n ns ih =>
    intro i g j
    cases hmm : nodeTypeMismatch n
    · rw [goodTake_cons_ok n ns hmm]
      cases g
      · have hstep : Event.axisConstructed j ∈ stepEvts i false n ↔ False := by
          simp [stepEvts, hmm]
        simp only [loopEvts, List.mem_append, hstep, hmm, Bool.not_false, Bool.false_and, ih]
        simp
      · have hstep : Event.axisConstructed j ∈ stepEvts i true n ↔ j = i := by
          simp [stepEvts, hmm]
        have hgood : (true && !nodeTypeMismatch n) = true := by simp [hmm]
        simp only [loopEvts, List.mem_append, hstep, hgood, ih, List.length_cons]
        constructor
        · rintro (rfl | ⟨_, h1, h2⟩)
          · exact ⟨by trivial, le_refl _, by omega⟩
          · exact ⟨by trivial, by omega, by omega⟩
        · rintro ⟨_, h1, h2⟩
          rcases Nat.eq_or_lt_of_le h1 with heq | hlt
          · exact Or.inl heq.symm
          · exact Or.inr ⟨by trivial, hlt, by omega⟩
    · rw [goodTake_cons_mismatch n ns hmm]
      have hstep : ∀ g', Event.axisConstructed j ∈ stepEvts i g' n ↔ False := by
        intro g'; simp [stepEvts, hmm]
      have hgood : (g && !nodeTypeMismatch n) = false := by simp [hmm]
      simp only [loopEvts, List.mem_append, hstep, hgood, ih, List.length_nil, false_or]
      constructor
      · rintro ⟨h, -, -⟩; cases h
      · rintro ⟨-, h1, h2⟩; omega

theorem typeMismatchDiag_mem_loopEvts (ns : List INode) : ∀ (i : Nat) (g : Bool) (j : Nat),
    Event.typeMismatchDiag j ∈ loopEvts i g ns ↔
      ∃ k, k < ns.length ∧ j = i + k ∧
        nodeTypeMismatch (ns.getD k default) = true := by
  induction ns with
  | nil => intro i g j; simp [loopEvts]
  | cons n ns ih =>
    intro i g j
    have hstep : Event.typeMismatchDiag j ∈ stepEvts i g n ↔
        (j = i ∧ nodeTypeMismatch n = true) := by
      cases hmm : nodeTypeMismatch n
      · cases g <;> simp [stepEvts, hmm]
      · simp [stepEvts, hmm]
    simp only [loopEvts, List.mem_append, hstep, ih, List.length_cons]
    constructor
    · rintro (⟨rfl, hm⟩ | ⟨k, hk, rfl, hm⟩)
      · exact ⟨0, by omega, by omega, by simpa using hm⟩
      · exact ⟨k + 1, by omega, by omega, by simpa using hm⟩
    · rintro ⟨k, hk, rfl, hm⟩
      cases k with
      | zero => exact Or.inl ⟨by omega, by simpa using hm⟩
      | succ k => exact Or.inr ⟨k, by omega, by omega, by simpa using hm⟩

/-- Environment the program runs against: whether `PortsOpen` throws (and with
which `mnErr`), the nodes found on the single port, and for each axis index
whether its `AxisMain()` call throws. -/
structure World where
  portsOpenErr : Option MnErr
  nodes : List INode
  axisMainErr : List (Option Thrown)
deriving DecidableEq, Repr

/-- Result of `InitializeSysManager` (main.cpp lines 42-95): whether it
returned true, the events it performed, and its diagnostics per stream.
`portNodes` lists, per port, the nodes attached to that port. -/
structure InitResult where
  ok : Bool
  events : List Event
  outMsgs : List Msg
  errMsgs : List Msg
deriving DecidableEq, Repr

/-- `InitializeSysManager`: create each port via `ComHubPort`, try `PortsOpen`
(on an `mnErr` print the port-setup diagnostic to stderr and stdout and return
false), then — with `printNodeStats` — query every node of every port. -/
def initSysManager (portNodes : List (List INode)) (portsOpenErr : Option MnErr) :
    InitResult :=
  let pre := (List.range portNodes.length).map Event.comHubPort ++ [Event.portsOpenCall]
  match portsOpenErr with
  | some e =>
    { ok := false, events := pre,
      outMsgs := [Msg.portSetupDiag e], errMsgs := [Msg.portSetupDiag e] }
  | none =>
    { ok := true,
      events := pre ++ (List.range portNodes.length).flatMap
        (fun p => (List.range (portNodes.getD p []).length).map (Event.nodeQueried p)),
      outMsgs := [], errMsgs := [] }

/-- Run `AxisMain()` on axes `i, i+1, ...` (`fuel` of them, main.cpp lines
181-184), stopping at the first call that throws; returns the calls made and
the escaping exception, if any. -/
def axisMainRunFrom (errs : List (Option Thrown)) : Nat → Nat → List Event × Option Thrown
  | 0, _ => ([], none)
  | fuel + 1, i =>
    match errs.getD i none with
    | some t => ([Event.axisMainCall i], some t)
    | none =>
      let r := axisMainRunFrom errs fuel (i + 1)
      (Event.axisMainCall i :: r.1, r.2)

/-- The teardown of main.cpp lines 198-204: delete each axis of the list in
order, then `PortsClose`. -/
def teardownEvts (numAxes : Nat) : List Event :=
  (List.range numAxes).map Event.axisDelete ++ [Event.portsCloseCall]

/-- Exit code, event trace, and per-stream diagnostics of one run of `main`. -/
structure MainResult where
  exitCode : Int
  events : List Event
  outMsgs : List Msg
  errMsgs : List Msg
deriving DecidableEq, Repr

/-- The whole of `main` (main.cpp lines 104-223), shallowly embedded over a
`World`. `argc` is the argument count; the single port of the example carries
`w.nodes`. Exceptions can escape driver calls only at `AxisMain` in this
model (`PortsOpen` failures are caught inside `InitializeSysManager`). -/
def runMain (argc : Nat) (w : World) : MainResult :=
  if argc ≠ 2 then
    { exitCode := -1, events := [], outMsgs := [Msg.usage, Msg.pressKey], errMsgs := [] }
  else
    let ir := initSysManager [w.nodes] w.portsOpenErr
    if ir.ok = false then
      { exitCode := -2, events := ir.events,
        outMsgs := ir.outMsgs ++ [Msg.initFail, Msg.pressKey], errMsgs := ir.errMsgs }
    else
      let ls := runLoop loopStart 0 w.nodes
      if ls.nodeTypesGood && ls.accessLvlsGood then
        match axisMainRunFrom w.axisMainErr ls.listOfAxes.length 0 with
        | (es, none) =>
          { exitCode := 0,
            events := ir.events ++ ls.events ++ es ++ teardownEvts ls.listOfAxes.length,
            outMsgs := [Msg.pressKey], errMsgs := [] }
        | (es, some (Thrown.structured e)) =>
          { exitCode := -3, events := ir.events ++ ls.events ++ es,
            outMsgs := [Msg.topStructuredDiag e, Msg.pressKey],
            errMsgs := [Msg.topStructuredDiag e] }
        | (es, some Thrown.generic) =>
          { exitCode := -4, events := ir.events ++ ls.events ++ es,
            outMsgs := [Msg.topGenericDiag, Msg.pressKey],
            errMsgs := [Msg.topGenericDiag] }
      else
        { exitCode := if ls.nodeTypesGood = false then -5 else -6,
          events := ir.events ++ ls.events ++ teardownEvts ls.listOfAxes.length,
          outMsgs := [if ls.nodeTypesGood = false then Msg.failureNodeTypes
                      else Msg.failureAccessLvls, Msg.pressKey],
          errMsgs := [] }

/-- The bring-up decision of main.cpp line 180: both flags still good after
the validation loop. -/
def bringupOk (w : World) : Bool :=
  (runLoop loopStart 0 w.nodes).nodeTypesGood &&
  (runLoop loopStart 0 w.nodes).accessLvlsGood

/-- Number of Axis objects constructed during the validation loop. -/
def numAxes (w : World) : Nat := (runLoop loopStart 0 w.nodes).listOfAxes.length

theorem goodTake_eq_self (ns : List INode)
    (h : ns.all (fun n => !nodeTypeMismatch n) = true) : goodTake ns = ns := by
  induction ns with
  | nil => rfl
  | cons n ns ih =>
    simp only [List.all_cons, Bool.and_eq_true] at h
    have hmm : nodeTypeMismatch n = false := by
      cases hx : nodeTypeMismatch n
      · rfl
      · rw [hx] at h; simp at h
    rw [goodTake_cons_ok n ns hmm, ih h.2]

theorem goodTake_length_lt (ns : List INode)
    (h : ∃ n ∈ ns, nodeTypeMismatch n = true) : (goodTake ns).length < ns.length := by
  induction ns with
  | nil => simp at h
  | cons n ns ih =>
    cases hmm : nodeTypeMismatch n
    · rw [goodTake_cons_ok n ns hmm]
      rcases h with ⟨m, hm, hmt⟩
      rcases List.mem_cons.mp hm with rfl | hm'
      · rw [hmm] at hmt; cases hmt
      · have := ih ⟨m, hm', hmt⟩
        simp only [List.length_cons]
        omega
    · rw [goodTake_cons_mismatch n ns hmm]
      simp

theorem goodTake_first_bad (ns : List INode)
    (h : (goodTake ns).length < ns.length) :
    nodeTypeMismatch (ns.getD (goodTake ns).length default) = true := by
  induction ns with
  | nil => simp at h
  | cons n ns ih =>
    cases hmm : nodeTypeMismatch n
    · rw [goodTake_cons_ok n ns hmm] at h ⊢
      simp only [List.length_cons, List.getD_cons_succ]
      exact ih (by simpa using h)
    · rw [goodTake_cons_mismatch n ns hmm]
      simpa using hmm

theorem nodeTypeMismatch_eq_false_iff (n : INode) :
    nodeTypeMismatch n = false ↔
      (n.nodeType = NodeType.CLEARPATH_SC ∨ n.nodeType = NodeType.CLEARPATH_SC_ADV) := by
  simp [nodeTypeMismatch]
  tauto

theorem nodeTypeMismatch_eq_true_iff (n : INode) :
    nodeTypeMismatch n = true ↔
      (n.nodeType ≠ NodeType.CLEARPATH_SC ∧ n.nodeType ≠ NodeType.CLEARPATH_SC_ADV) := by
  simp [nodeTypeMismatch]
  tauto

/-- Events `InitializeSysManager` can emit. -/
def Event.isInitEvt : Event → Bool
  | .comHubPort _ => true
  | .portsOpenCall => true
  | .nodeQueried _ _ => true
  | _ => false

theorem initSysManager_shape (pn : List (List INode)) (po : Option MnErr) :
    ∀ e ∈ (initSysManager pn po).events, e.isInitEvt = true := by
  intro e he
  cases po with
  | some err =>
    simp [initSysManager] at he
    rcases he with ⟨p, -, rfl⟩ | rfl <;> rfl
  | none =>
    simp [initSysManager] at he
    rcases he with ⟨p, -, rfl⟩ | rfl | ⟨p, -, k, -, rfl⟩ <;> rfl

theorem initSysManager_none_events (ns : List INode) :
    (initSysManager [ns] none).events =
      [Event.comHubPort 0, Event.portsOpenCall] ++
        (List.range ns.length).map (Event.nodeQueried 0) := by
  simp [initSysManager, List.range_succ]

theorem initSysManager_some (pn : List (List INode)) (e : MnErr) :
    initSysManager pn (some e) =
      { ok := false,
        events := (List.range pn.length).map Event.comHubPort ++ [Event.portsOpenCall],
        outMsgs := [Msg.portSetupDiag e], errMsgs := [Msg.portSetupDiag e] } := rfl

theorem axisMainRunFrom_shape (errs : List (Option Thrown)) :
    ∀ (fuel i : Nat) (e : Event), e ∈ (axisMainRunFrom errs fuel i).1 →
      ∃ j, e = Event.axisMainCall j := by
  intro fuel
  induction fuel with
  | zero => intro i e he; simp [axisMainRunFrom] at he
  | succ fuel ih =>
    intro i e he
    cases hg : errs.getD i none with
    | some t =>
      simp only [axisMainRunFrom, hg] at he
      simp at he
      exact ⟨i, he⟩
    | none =>
      simp only [axisMainRunFrom, hg, List.mem_cons] at he
      rcases he with rfl | he
      · exact ⟨i, rfl⟩
      · exact ih _ _ he

theorem axisMainRunFrom_noThrow (errs : List (Option Thrown))
    (h : ∀ k, errs.getD k none = none) :
    ∀ (fuel i : Nat),
      axisMainRunFrom errs fuel i = ((List.range' i fuel).map Event.axisMainCall, none) := by
  intro fuel
  induction fuel with
  | zero => intro i; rfl
  | succ fuel ih =>
    intro i
    simp only [axisMainRunFrom, h i, ih (i + 1), List.range'_succ, List.map_cons]

/-- Events the teardown can emit. -/
def Event.isTeardownEvt : Event → Bool
  | .axisDelete _ => true
  | .portsCloseCall => true
  | _ => false

theorem teardownEvts_shape (m : Nat) :
    ∀ e ∈ teardownEvts m, e.isTeardownEvt = true := by
  intro e he
  simp [teardownEvts] at he
  rcases he with ⟨j, -, rfl⟩ | rfl <;> rfl

theorem count_portsClose_teardownEvts (m : Nat) :
    (teardownEvts m).count Event.portsCloseCall = 1 := by
  rw [teardownEvts, List.count_append]
  have h0 : ((List.range m).map Event.axisDelete).count Event.portsCloseCall = 0 := by
    rw [List.count_eq_zero]
    intro hc
    rcases List.mem_map.mp hc with ⟨j, -, hj⟩
    cases hj
  rw [h0]
  simp

theorem axisMainCall_injective : Function.Injective Event.axisMainCall := by
  intro a b h
  injection h

theorem count_axisMainCall_range' (i fuel j : Nat) :
    ((List.range' i fuel).map Event.axisMainCall).count (Event.axisMainCall j) =
      if i ≤ j ∧ j < i + fuel then 1 else 0 := by
  rw [List.count_map_of_injective _ _ axisMainCall_injective]
  by_cases hm : j ∈ List.range' i fuel
  · rw [List.count_eq_one_of_mem (List.nodup_range' i fuel) hm, if_pos]
    exact List.mem_range'_1.mp hm
  · rw [List.count_eq_zero_of_not_mem hm, if_neg]
    intro hc
    exact hm (List.mem_range'_1.mpr hc)

theorem runMain_initFail (w : World) (e : MnErr) (he : w.portsOpenErr = some e) :
    runMain 2 w =
      { exitCode := -2,
        events := [Event.comHubPort 0, Event.portsOpenCall],
        outMsgs := [Msg.portSetupDiag e, Msg.initFail, Msg.pressKey],
        errMsgs := [Msg.portSetupDiag e] } := by
  rw [runMain]
  simp only [he, initSysManager_some]
  norm_num
  rfl

theorem runMain_rejected (w : World) (hopen : w.portsOpenErr = none)
    (hrej : bringupOk w = false) :
    runMain 2 w =
      { exitCode :=
          if (runLoop loopStart 0 w.nodes).nodeTypesGood = false then -5 else -6,
        events := (initSysManager [w.nodes] none).events ++
          (runLoop loopStart 0 w.nodes).events ++ teardownEvts (numAxes w),
        outMsgs :=
          [if (runLoop loopStart 0 w.nodes).nodeTypesGood = false then Msg.failureNodeTypes
           else Msg.failureAccessLvls, Msg.pressKey],
        errMsgs := [] } := by
  rw [bringupOk] at hrej
  rw [runMain]
  simp only [hopen]
  rw [if_neg (by decide)]
  rw [if_neg (by intro hc; simp [initSysManager] at hc)]
  rw [if_neg (fun hc => by rw [hc] at hrej; exact Bool.noConfusion hrej)]
  simp [numAxes, List.append_assoc]

theorem runMain_ready (w : World) (hopen : w.portsOpenErr = none)
    (hok : bringupOk w = true) (es : List Event)
    (hr : axisMainRunFrom w.axisMainErr (numAxes w) 0 = (es, none)) :
    runMain 2 w =
      { exitCode := 0,
        events := (initSysManager [w.nodes] none).events ++
          (runLoop loopStart 0 w.nodes).events ++ es ++ teardownEvts (numAxes w),
        outMsgs := [Msg.pressKey], errMsgs := [] } := by
  rw [bringupOk, Bool.and_eq_true] at hok
  rw [numAxes] at hr
  rw [runMain]
  simp only [hopen]
  rw [if_neg (by decide)]
  rw [if_neg (by intro hc; simp [initSysManager] at hc)]
  rw [if_pos (by rw [hok.1, hok.2]; rfl), hr]
  simp [numAxes, List.append_assoc]

theorem runMain_thrownStructured (w : World) (hopen : w.portsOpenErr = none)
    (hok : bringupOk w = true) (es : List Event) (e : MnErr)
    (hr : axisMainRunFrom w.axisMainErr (numAxes w) 0 = (es, some (Thrown.structured e))) :
    runMain 2 w =
      { exitCode := -3,
        events := (initSysManager [w.nodes] none).events ++
          (runLoop loopStart 0 w.nodes).events ++ es,
        outMsgs := [Msg.topStructuredDiag e, Msg.pressKey],
        errMsgs := [Msg.topStructuredDiag e] } := by
  rw [bringupOk, Bool.and_eq_true] at hok
  rw [numAxes] at hr
  rw [runMain]
  simp only [hopen]
  rw [if_neg (by decide)]
  rw [if_neg (by intro hc; simp [initSysManager] at hc)]
  rw [if_pos (by rw [hok.1, hok.2]; rfl), hr]

theorem runMain_thrownGeneric (w : World) (hopen : w.portsOpenErr = none)
    (hok : bringupOk w = true) (es : List Event)
    (hr : axisMainRunFrom w.axisMainErr (numAxes w) 0 = (es, some Thrown.generic)) :
    runMain 2 w =
      { exitCode := -4,
        events := (initSysManager [w.nodes] none).events ++
          (runLoop loopStart 0 w.nodes).events ++ es,
        outMsgs := [Msg.topGenericDiag, Msg.pressKey],
        errMsgs := [Msg.topGenericDiag] } := by
  rw [bringupOk, Bool.and_eq_true] at hok
  rw [numAxes] at hr
  rw [runMain]
  simp only [hopen]
  rw [if_neg (by decide)]
  rw [if_neg (by intro hc; simp [initSysManager] at hc)]
  rw [if_pos (by rw [hok.1, hok.2]; rfl), hr]

/-! ### OS shim: `infcCoreTime` (lnkAccessLinux.cpp lines 115-137)

The static `initial` is explicit state; a call receives the outcome of
`clock_gettime` (a seconds/nanoseconds reading, or failure). Times are
rationals, standing for the exact values the C arithmetic manipulates. -/

/-- Outcome of `clock_gettime(CLOCK_REALTIME, &now)`. -/
inductive ClockReading where
  | ok (sec nsec : Int)
  | fail
deriving DecidableEq, Repr

/-- `double(now.tv_sec)*1000 + double(now.tv_nsec)*1e-6`: the reading in
milliseconds. -/
def clockMs (sec nsec : Int) : ℚ := (sec : ℚ) * 1000 + (nsec : ℚ) / 1000000

/-- The static `initial` of `infcCoreTime`, zero-initialised. -/
structure CoreTimeState where
  initial : ℚ
deriving DecidableEq, Repr

/-- One call of `infcCoreTime`: on clock failure return 0; otherwise compute
`tNow = reading - initial`, set `initial` to `tNow` when `initial` is still
zero (`if (!initial)`), and return `tNow`. -/
def infcCoreTime (st : CoreTimeState) (r : ClockReading) : CoreTimeState × ℚ :=
  match r with
  | ClockReading.fail => (st, 0)
  | ClockReading.ok sec nsec =>
    let tNow : ℚ := clockMs sec nsec - st.initial
    if st.initial = 0 then ({ initial := tNow }, tNow) else (st, tNow)

/-- Repeated calls of `infcCoreTime`, returning the values in order. -/
def runCoreTime (st : CoreTimeState) : List ClockReading → List ℚ
  | [] => []
  | r :: rs =>
    let c := infcCoreTime st r
    c.2 :: runCoreTime c.1 rs

theorem runCoreTime_established (c : ℚ) (hc : c ≠ 0) (rs : List ClockReading) :
    runCoreTime ⟨c⟩ rs = rs.map (fun r =>
      match r with
      | ClockReading.ok s n => clockMs s n - c
      | ClockReading.fail => 0) := by
  induction rs with
  | nil => rfl
  | cons r rs ih =>
    cases r with
    | ok s n =>
      simp only [runCoreTime, infcCoreTime, if_neg hc, List.map_cons]
      exact congrArg _ ih
    | fail =>
      simp only [runCoreTime, infcCoreTime, List.map_cons]
      exact congrArg _ ih

/-! ### OS shim: `infcErrCodeStrA` (lnkAccessLinux.cpp lines 214-222) -/

/-- Return codes of `infcErrCodeStrA`. -/
inductive CnErrCode where
  | MN_OK
  | MN_ERR_BADARG
deriving DecidableEq, Repr

/-- The string `snprintf(resultStr, maxLen, "Error: 0x%x", lookupCode)` tries
to produce (`%x`: lowercase hex, no padding). -/
def errFmt (lookupCode : Nat) : String :=
  "Error: 0x" ++ String.mk (Nat.toDigits 16 lookupCode)

/-- `snprintf`'s return value: the number of characters (not counting the
terminating null byte) that would have been written given enough space. -/
def snprintfWouldWrite (lookupCode : Nat) : Nat := (errFmt lookupCode).length

/-- `infcErrCodeStrA`: format the code into the buffer of size `maxLen` and
return `MN_OK` iff `snprintf`'s return value equals `maxLen`
(`nChars==maxLen ? MN_OK : MN_ERR_BADARG`). -/
def infcErrCodeStrA (lookupCode maxLen : Nat) : CnErrCode :=
  if snprintfWouldWrite lookupCode = maxLen then CnErrCode.MN_OK
  else CnErrCode.MN_ERR_BADARG

/-! ### OS shim: `infcDbgDepth` (lnkAccessLinux.cpp lines 313-321)

`SysInventory` is declared `extern mnNetInvRecords SysInventory[NET_CONTROLLER_MAX]`;
its size is kept as a parameter (the macro's value lives in an unseen header).
The model records the guard and the index used so the bounds relationship can
be stated; out-of-range access is modelled totally via `getD`. -/

/-- `netStateInfo`: only `pSerialPort->MaxDepth()` is relevant here. -/
structure NetStateInfo where
  serialPortMaxDepth : Int
deriving DecidableEq, Repr

/-- `mnNetInvRecords`: only the `pNCS` pointer is relevant here. -/
structure MnNetInvRecords where
  pNCS : Option NetStateInfo
deriving DecidableEq, Repr

/-- The guard of `infcDbgDepth`: `if (cNum > NET_CONTROLLER_MAX) return 0`. -/
def dbgDepthGuardRejects (netControllerMax cNum : Nat) : Bool :=
  decide (netControllerMax < cNum)

/-- The array index `SysInventory[cNum]` is within an array of
`netControllerMax` records iff `cNum < netControllerMax`. -/
def dbgDepthIndexInBounds (netControllerMax cNum : Nat) : Prop :=
  cNum < netControllerMax

/-- `infcDbgDepth`, with the access `SysInventory[cNum]` made total by
defaulting to a record with null `pNCS`. -/
def infcDbgDepth (netControllerMax : Nat) (sysInventory : List MnNetInvRecords)
    (cNum : Nat) : Int :=
  if dbgDepthGuardRejects netControllerMax cNum then 0
  else
    match (sysInventory.getD cNum ⟨none⟩).pNCS with
    | some p => p.serialPortMaxDepth
    | none => 0

theorem not_in_initEvents (w : World) (e : Event) (h : e.isInitEvt = false) :
    e ∉ (initSysManager [w.nodes] none).events := by
  intro hmem
  have := initSysManager_shape [w.nodes] none e hmem
  rw [h] at this
  exact Bool.noConfusion this

theorem not_in_loopEvents (w : World) (e : Event) (h : e.isNodeLoopEvt = false) :
    e ∉ (runLoop loopStart 0 w.nodes).events := by
  intro hmem
  rw [runLoop_events] at hmem
  simp only [loopStart, List.nil_append] at hmem
  have := loopEvts_shape w.nodes 0 true e hmem
  rw [h] at this
  exact Bool.noConfusion this

theorem not_in_teardownEvts (m : Nat) (e : Event) (h : e.isTeardownEvt = false) :
    e ∉ teardownEvts m := by
  intro hmem
  have := teardownEvts_shape m e hmem
  rw [h] at this
  exact Bool.noConfusion this

theorem not_in_axisMainEvents (errs : List (Option Thrown)) (fuel i : Nat) (e : Event)
    (h : ∀ j, e ≠ Event.axisMainCall j) : e ∉ (axisMainRunFrom errs fuel i).1 := by
  intro hmem
  rcases axisMainRunFrom_shape errs fuel i e hmem with ⟨j, rfl⟩
  exact h j rfl

theorem all_typeOk_iff (ns : List INode) :
    ns.all (fun n => !nodeTypeMismatch n) = true ↔
      ∀ n ∈ ns, (n.nodeType = NodeType.CLEARPATH_SC ∨
                 n.nodeType = NodeType.CLEARPATH_SC_ADV) := by
  simp only [List.all_eq_true, Bool.not_eq_true', nodeTypeMismatch_eq_false_iff]

theorem all_access_iff (ns : List INode) :
    ns.all (fun n => n.accessLevelIsFull) = true ↔
      ∀ n ∈ ns, n.accessLevelIsFull = true := by
  simp only [List.all_eq_true]

theorem bringupOk_eq (w : World) :
    bringupOk w = (w.nodes.all (fun n => !nodeTypeMismatch n) &&
                   w.nodes.all (fun n => n.accessLevelIsFull)) := by
  rw [bringupOk, runLoop_nodeTypesGood, (runLoop_goodState w.nodes loopStart 0 rfl).2]
  simp only [loopStart, Bool.true_and]
  cases hall : w.nodes.all (fun n => !nodeTypeMismatch n)
  · simp
  · rw [goodTake_eq_self w.nodes hall]

theorem numAxes_eq (w : World) : numAxes w = (goodTake w.nodes).length := by
  rw [numAxes, (runLoop_goodState w.nodes loopStart 0 rfl).1]
  simp [loopStart]

/-- A ClearPath-SC node in full-access mode. -/
def scNodeFull : INode := ⟨NodeType.CLEARPATH_SC, true⟩

/-- A ClearPath-SC node that is not in full-access mode. -/
def scNodeNoAccess : INode := ⟨NodeType.CLEARPATH_SC, false⟩

/-- A node of some non-ClearPath type. -/
def genericNode : INode := ⟨NodeType.GENERIC 3, true⟩

/-- World for C1's counterexample: a good node followed by a non-ClearPath
node, ports opening fine. -/
def wMixed : World := ⟨none, [scNodeFull, genericNode], []⟩

/-- World for C2's counterexample: one valid full-access node whose
`AxisMain` throws a non-structured exception. -/
def wThrower : World := ⟨none, [scNodeFull], [some Thrown.generic]⟩

/-- World with two valid full-access nodes and no exceptions. -/
def wAllGood : World := ⟨none, [scNodeFull, scNodeFull], []⟩

/-- C1 (counterexample): in the world `wMixed` — node 0 a ClearPath-SC,
node 1 of a non-ClearPath type — some node fails the type check, yet an Axis
IS constructed (for node 0) and the axis list after the loop is nonempty.
The claim's "no Axis object is constructed for any node, regardless of the
failing node's position" is therefore false. -/
theorem C1_counterexample :
    (∃ n ∈ wMixed.nodes, n.nodeType ≠ NodeType.CLEARPATH_SC ∧
        n.nodeType ≠ NodeType.CLEARPATH_SC_ADV) ∧
    Event.axisConstructed 0 ∈ (runMain 2 wMixed).events ∧
    (runLoop loopStart 0 wMixed.nodes).listOfAxes ≠ [] := by
  refine ⟨?_, ?_, ?_⟩ <;> decide

/-- C1 (amended): if any node's type is outside
{CLEARPATH_SC, CLEARPATH_SC_ADV}, then Axis objects are constructed exactly
for the nodes strictly preceding the first type-failing node — none for the
failing node or any node after it — so the axis list is empty iff the first
failing node is at position 0. -/
theorem C1_amended (nodes : List INode)
    (h : ∃ n ∈ nodes, n.nodeType ≠ NodeType.CLEARPATH_SC ∧
        n.nodeType ≠ NodeType.CLEARPATH_SC_ADV) :
    (runLoop loopStart 0 nodes).listOfAxes =
      (goodTake nodes).map (fun n => Axis.mk n) ∧
    (goodTake nodes).length < nodes.length ∧
    nodeTypeMismatch (nodes.getD (goodTake nodes).length default) = true ∧
    (∀ j, (goodTake nodes).length ≤ j →
      Event.axisConstructed j ∉ (runLoop loopStart 0 nodes).events) := by
  have h' : ∃ n ∈ nodes, nodeTypeMismatch n = true := by
    rcases h with ⟨n, hn, h1, h2⟩
    exact ⟨n, hn, (nodeTypeMismatch_eq_true_iff n).mpr ⟨h1, h2⟩⟩
  have hlen := goodTake_length_lt nodes h'
  have haxes := (runLoop_goodState nodes loopStart 0 rfl).1
  refine ⟨by simpa [loopStart] using haxes, hlen, goodTake_first_bad nodes hlen, ?_⟩
  intro j hj hmem
  rw [runLoop_events] at hmem
  simp only [loopStart, List.nil_append] at hmem
  rw [axisConstructed_mem_loopEvts] at hmem
  omega

/-- C1 (witness): the amended statement instantiated at `wMixed.nodes`. -/
theorem C1_witness :
    (∃ n ∈ wMixed.nodes, n.nodeType ≠ NodeType.CLEARPATH_SC ∧
        n.nodeType ≠ NodeType.CLEARPATH_SC_ADV) ∧
    ((runLoop loopStart 0 wMixed.nodes).listOfAxes =
        (goodTake wMixed.nodes).map (fun n => Axis.mk n) ∧
      (goodTake wMixed.nodes).length < wMixed.nodes.length ∧
      nodeTypeMismatch (wMixed.nodes.getD (goodTake wMixed.nodes).length default) = true ∧
      (∀ j, (goodTake wMixed.nodes).length ≤ j →
        Event.axisConstructed j ∉ (runLoop loopStart 0 wMixed.nodes).events)) :=
  ⟨by decide, C1_amended wMixed.nodes (by decide)⟩

/-- C2 (counterexample): in `wThrower` the ports open (`portsOpenErr = none`,
and `PortsOpen` is reached), bring-up reaches Ready and `AxisMain` throws; the
teardown of main.cpp lines 198-204 sits inside the `try` block, so neither the
axis deletion nor `PortsClose` ever runs — the claim that teardown runs on the
top-level-exception path is false. -/
theorem C2_counterexample :
    wThrower.portsOpenErr = none ∧
    Event.portsOpenCall ∈ (runMain 2 wThrower).events ∧
    Event.portsCloseCall ∉ (runMain 2 wThrower).events ∧
    Event.axisDelete 0 ∉ (runMain 2 wThrower).events := by
  refine ⟨?_, ?_, ?_, ?_⟩ <;> decide

/-- C2 (amended): teardown — delete every constructed Axis, then close the
ports, in that order — runs exactly once on the paths that complete the `try`
block (Ready with every `AxisMain` call returning, and Rejected); on the
OpenFailed path and on the top-level-exception paths neither an axis deletion
nor `PortsClose` is executed. -/
theorem C2_amended (w : World) :
    ((w.portsOpenErr = none ∧
        (bringupOk w = false ∨
          (axisMainRunFrom w.axisMainErr (numAxes w) 0).2 = none)) →
      ∃ pre, (runMain 2 w).events = pre ++ teardownEvts (numAxes w) ∧
        Event.portsCloseCall ∉ pre ∧ (∀ j, Event.axisDelete j ∉ pre) ∧
        (runMain 2 w).events.count Event.portsCloseCall = 1) ∧
    ((∃ e, w.portsOpenErr = some e) →
      Event.portsCloseCall ∉ (runMain 2 w).events ∧
      ∀ j, Event.axisDelete j ∉ (runMain 2 w).events) ∧
    ((w.portsOpenErr = none ∧ bringupOk w = true ∧
        ∃ t, (axisMainRunFrom w.axisMainErr (numAxes w) 0).2 = some t) →
      Event.portsCloseCall ∉ (runMain 2 w).events ∧
      ∀ j, Event.axisDelete j ∉ (runMain 2 w).events) := by
  refine ⟨?_, ?_, ?_⟩
  · rintro ⟨hopen, hcase⟩
    cases hb : bringupOk w
    · rw [runMain_rejected w hopen hb]
      refine ⟨(initSysManager [w.nodes] none).events ++
          (runLoop loopStart 0 w.nodes).events, by simp, ?_, ?_, ?_⟩
      · intro hmem
        rcases List.mem_append.mp hmem with hmem | hmem
        · exact not_in_initEvents w Event.portsCloseCall rfl hmem
        · exact not_in_loopEvents w Event.portsCloseCall rfl hmem
      · intro j hmem
        rcases List.mem_append.mp hmem with hmem | hmem
        · exact not_in_initEvents w (Event.axisDelete j) rfl hmem
        · exact not_in_loopEvents w (Event.axisDelete j) rfl hmem
      · show (((initSysManager [w.nodes] none).events ++
            (runLoop loopStart 0 w.nodes).events) ++
              teardownEvts (numAxes w)).count Event.portsCloseCall = 1
        rw [List.count_append, List.count_append,
          List.count_eq_zero_of_not_mem (not_in_initEvents w Event.portsCloseCall rfl),
          List.count_eq_zero_of_not_mem (not_in_loopEvents w Event.portsCloseCall rfl),
          count_portsClose_teardownEvts]
    · rcases hcase with hfalse | hnone
      · rw [hb] at hfalse; exact Bool.noConfusion hfalse
      · rcases hres : axisMainRunFrom w.axisMainErr (numAxes w) 0 with ⟨es, o⟩
        rw [hres] at hnone
        simp only at hnone
        subst hnone
        have hes : ∀ x ∈ es, ∃ j, x = Event.axisMainCall j := by
          intro x hx
          apply axisMainRunFrom_shape w.axisMainErr (numAxes w) 0
          rw [hres]
          exact hx
        rw [runMain_ready w hopen hb es hres]
        refine ⟨(initSysManager [w.nodes] none).events ++
            (runLoop loopStart 0 w.nodes).events ++ es, by simp, ?_, ?_, ?_⟩
        · intro hmem
          rcases List.mem_append.mp hmem with hmem | hmem
          rcases List.mem_append.mp hmem with hmem | hmem
          · exact not_in_initEvents w Event.portsCloseCall rfl hmem
          · exact not_in_loopEvents w Event.portsCloseCall rfl hmem
          · rcases hes _ hmem with ⟨j, hj⟩; exact Event.noConfusion hj
        · intro j hmem
          rcases List.mem_append.mp hmem with hmem | hmem
          rcases List.mem_append.mp hmem with hmem | hmem
          · exact not_in_initEvents w (Event.axisDelete j) rfl hmem
          · exact not_in_loopEvents w (Event.axisDelete j) rfl hmem
          · rcases hes _ hmem with ⟨j2, hj⟩; exact Event.noConfusion hj
        · show ((((initSysManager [w.nodes] none).events ++
              (runLoop loopStart 0 w.nodes).events) ++ es) ++
                teardownEvts (numAxes w)).count Event.portsCloseCall = 1
          rw [List.count_append, List.count_append, List.count_append,
            List.count_eq_zero_of_not_mem (not_in_initEvents w Event.portsCloseCall rfl),
            List.count_eq_zero_of_not_mem (not_in_loopEvents w Event.portsCloseCall rfl),
            List.count_eq_zero_of_not_mem (fun hmem => by
              rcases hes _ hmem with ⟨j, hj⟩; exact Event.noConfusion hj),
            count_portsClose_teardownEvts]
  · rintro ⟨e, he⟩
    rw [runMain_initFail w e he]
    refine ⟨by simp, fun j => by simp⟩
  · rintro ⟨hopen, hb, t, ht⟩
    rcases hres : axisMainRunFrom w.axisMainErr (numAxes w) 0 with ⟨es, o⟩
    rw [hres] at ht
    simp only at ht
    subst ht
    have hes : ∀ x ∈ es, ∃ j, x = Event.axisMainCall j := by
      intro x hx
      apply axisMainRunFrom_shape w.axisMainErr (numAxes w) 0
      rw [hres]
      exact hx
    have hnotmem : ∀ x : Event, x.isInitEvt = false → x.isNodeLoopEvt = false →
        (∀ j, x ≠ Event.axisMainCall j) →
        x ∉ (initSysManager [w.nodes] none).events ++
          (runLoop loopStart 0 w.nodes).events ++ es := by
      intro x h1 h2 h3 hmem
      rcases List.mem_append.mp hmem with hmem | hmem
      rcases List.mem_append.mp hmem with hmem | hmem
      · exact not_in_initEvents w x h1 hmem
      · exact not_in_loopEvents w x h2 hmem
      · rcases hes _ hmem with ⟨j, hj⟩; exact h3 j hj
    cases t with
    | structured e =>
      rw [runMain_thrownStructured w hopen hb es e hres]
      exact ⟨hnotmem _ rfl rfl (fun j h => Event.noConfusion h),
        fun j => hnotmem _ rfl rfl (fun j2 h => Event.noConfusion h)⟩
    | generic =>
      rw [runMain_thrownGeneric w hopen hb es hres]
      exact ⟨hnotmem _ rfl rfl (fun j h => Event.noConfusion h),
        fun j => hnotmem _ rfl rfl (fun j2 h => Event.noConfusion h)⟩

/-- C2 (witness): the amended statement's completed-`try` clause at
`wAllGood`. -/
theorem C2_witness :
    (wAllGood.portsOpenErr = none ∧
      (bringupOk wAllGood = false ∨
        (axisMainRunFrom wAllGood.axisMainErr (numAxes wAllGood) 0).2 = none)) ∧
    (∃ pre, (runMain 2 wAllGood).events = pre ++ teardownEvts (numAxes wAllGood) ∧
      Event.portsCloseCall ∉ pre ∧ (∀ j, Event.axisDelete j ∉ pre) ∧
      (runMain 2 wAllGood).events.count Event.portsCloseCall = 1) :=
  ⟨⟨rfl, Or.inr (by decide)⟩,
    (C2_amended wAllGood).1 ⟨rfl, Or.inr (by decide)⟩⟩

/-- C3: with ports open and no exceptions, `AxisMain` is invoked — exactly
once per constructed axis — iff every node passed the type check and every
node passed the access check (counts of `axisMainCall j` in the trace);
otherwise the exit code is -5 whenever some node failed the type check (even
if access checks also failed), and -6 exactly when all types were valid but
some node lacked full access. -/
theorem C3_axisMain_and_exitCodes (w : World)
    (hopen : w.portsOpenErr = none)
    (hnothrow : ∀ k, w.axisMainErr.getD k none = none) :
    (∀ j, (runMain 2 w).events.count (Event.axisMainCall j) =
        if ((∀ n ∈ w.nodes, n.nodeType = NodeType.CLEARPATH_SC ∨
               n.nodeType = NodeType.CLEARPATH_SC_ADV) ∧
            (∀ n ∈ w.nodes, n.accessLevelIsFull = true)) ∧ j < w.nodes.length
        then 1 else 0) ∧
    ((¬ ∀ n ∈ w.nodes, n.nodeType = NodeType.CLEARPATH_SC ∨
        n.nodeType = NodeType.CLEARPATH_SC_ADV) → (runMain 2 w).exitCode = -5) ∧
    ((∀ n ∈ w.nodes, n.nodeType = NodeType.CLEARPATH_SC ∨
        n.nodeType = NodeType.CLEARPATH_SC_ADV) →
      (¬ ∀ n ∈ w.nodes, n.accessLevelIsFull = true) →
      (runMain 2 w).exitCode = -6) ∧
    (((∀ n ∈ w.nodes, n.nodeType = NodeType.CLEARPATH_SC ∨
         n.nodeType = NodeType.CLEARPATH_SC_ADV) ∧
      (∀ n ∈ w.nodes, n.accessLevelIsFull = true)) →
      (runMain 2 w).exitCode = 0) := by
  have hAiff := all_typeOk_iff w.nodes
  have hBiff := all_access_iff w.nodes
  cases hA : w.nodes.all (fun n => !nodeTypeMismatch n)
  · have hb : bringupOk w = false := by rw [bringupOk_eq, hA]; rfl
    have hAprop : ¬ (∀ n ∈ w.nodes, n.nodeType = NodeType.CLEARPATH_SC ∨
        n.nodeType = NodeType.CLEARPATH_SC_ADV) := by
      intro hp
      rw [hAiff.mpr hp] at hA
      exact Bool.noConfusion hA
    have hng : (runLoop loopStart 0 w.nodes).nodeTypesGood = false := by
      rw [runLoop_nodeTypesGood, hA]
      simp [loopStart]
    rw [runMain_rejected w hopen hb]
    refine ⟨?_, ?_, ?_, ?_⟩
    · intro j
      have hP : ¬ ((((∀ n ∈ w.nodes, n.nodeType = NodeType.CLEARPATH_SC ∨
            n.nodeType = NodeType.CLEARPATH_SC_ADV) ∧
          (∀ n ∈ w.nodes, n.accessLevelIsFull = true)) ∧ j < w.nodes.length)) := by
        rintro ⟨⟨hp, _⟩, _⟩
        exact hAprop hp
      rw [if_neg hP]
      show (((initSysManager [w.nodes] none).events ++
          (runLoop loopStart 0 w.nodes).events) ++
            teardownEvts (numAxes w)).count (Event.axisMainCall j) = 0
      rw [List.count_append, List.count_append,
        List.count_eq_zero_of_not_mem (not_in_initEvents w (Event.axisMainCall j) rfl),
        List.count_eq_zero_of_not_mem (not_in_loopEvents w (Event.axisMainCall j) rfl),
        List.count_eq_zero_of_not_mem
          (not_in_teardownEvts (numAxes w) (Event.axisMainCall j) rfl)]
    · intro _
      show (if (runLoop loopStart 0 w.nodes).nodeTypesGood = false
            then (-5 : Int) else -6) = -5
      rw [if_pos hng]
    · intro hp _
      exact absurd hp hAprop
    · rintro ⟨hp, _⟩
      exact absurd hp hAprop
  · have hAprop := hAiff.mp hA
    have hng : (runLoop loopStart 0 w.nodes).nodeTypesGood = true := by
      rw [runLoop_nodeTypesGood, hA]
      simp [loopStart]
    cases hB : w.nodes.all (fun n => n.accessLevelIsFull)
    · have hb : bringupOk w = false := by rw [bringupOk_eq, hA, hB]; rfl
      have hBprop : ¬ (∀ n ∈ w.nodes, n.accessLevelIsFull = true) := by
        intro hp
        rw [hBiff.mpr hp] at hB
        exact Bool.noConfusion hB
      rw [runMain_rejected w hopen hb]
      refine ⟨?_, ?_, ?_, ?_⟩
      · intro j
        have hP : ¬ ((((∀ n ∈ w.nodes, n.nodeType = NodeType.CLEARPATH_SC ∨
              n.nodeType = NodeType.CLEARPATH_SC_ADV) ∧
            (∀ n ∈ w.nodes, n.accessLevelIsFull = true)) ∧ j < w.nodes.length)) := by
          rintro ⟨⟨_, hp⟩, _⟩
          exact hBprop hp
        rw [if_neg hP]
        show (((initSysManager [w.nodes] none).events ++
            (runLoop loopStart 0 w.nodes).events) ++
              teardownEvts (numAxes w)).count (Event.axisMainCall j) = 0
        rw [List.count_append, List.count_append,
          List.count_eq_zero_of_not_mem (not_in_initEvents w (Event.axisMainCall j) rfl),
          List.count_eq_zero_of_not_mem (not_in_loopEvents w (Event.axisMainCall j) rfl),
          List.count_eq_zero_of_not_mem
            (not_in_teardownEvts (numAxes w) (Event.axisMainCall j) rfl)]
      · intro hnp
        exact absurd hAprop hnp
      · intro _ _
        show (if (runLoop loopStart 0 w.nodes).nodeTypesGood = false
              then (-5 : Int) else -6) = -6
        rw [if_neg (fun hc => by rw [hng] at hc; exact Bool.noConfusion hc)]
      · rintro ⟨_, hp⟩
        exact absurd hp hBprop
    · have hb : bringupOk w = true := by rw [bringupOk_eq, hA, hB]; rfl
      have hBprop := hBiff.mp hB
      have hnum : numAxes w = w.nodes.length := by
        rw [numAxes_eq, goodTake_eq_self w.nodes hA]
      have hres := axisMainRunFrom_noThrow w.axisMainErr hnothrow (numAxes w) 0
      rw [runMain_ready w hopen hb _ hres]
      refine ⟨?_, ?_, ?_, ?_⟩
      · intro j
        show ((((initSysManager [w.nodes] none).events ++
            (runLoop loopStart 0 w.nodes).events) ++
              (List.range' 0 (numAxes w)).map Event.axisMainCall) ++
                teardownEvts (numAxes w)).count (Event.axisMainCall j) = _
        rw [List.count_append, List.count_append, List.count_append,
          List.count_eq_zero_of_not_mem (not_in_initEvents w (Event.axisMainCall j) rfl),
          List.count_eq_zero_of_not_mem (not_in_loopEvents w (Event.axisMainCall j) rfl),
          List.count_eq_zero_of_not_mem
            (not_in_teardownEvts (numAxes w) (Event.axisMainCall j) rfl),
          count_axisMainCall_range', hnum]
        simp only [Nat.zero_add, Nat.add_zero]
        by_cases hj : j < w.nodes.length
        · have h1 : 0 ≤ j ∧ j < w.nodes.length := ⟨Nat.zero_le j, hj⟩
          rw [if_pos h1]
          rw [if_pos ⟨⟨hAprop, hBprop⟩, hj⟩]
        · have h1 : ¬ (0 ≤ j ∧ j < w.nodes.length) := by omega
          rw [if_neg h1]
          rw [if_neg (fun hc => hj hc.2)]
      · intro hnp
        exact absurd hAprop hnp
      · intro _ hnp
        exact absurd hBprop hnp
      · intro _
        rfl

/-- C3 (witness): the count statement instantiated at `wAllGood`, index 0. -/
theorem C3_witness :
    (runMain 2 wAllGood).events.count (Event.axisMainCall 0) =
      if ((∀ n ∈ wAllGood.nodes, n.nodeType = NodeType.CLEARPATH_SC ∨
             n.nodeType = NodeType.CLEARPATH_SC_ADV) ∧
          (∀ n ∈ wAllGood.nodes, n.accessLevelIsFull = true)) ∧
         0 < wAllGood.nodes.length
      then 1 else 0 :=
  (C3_axisMain_and_exitCodes wAllGood rfl (by intro k; simp [wAllGood])).1 0

/-- World with a valid full-access node followed by a valid node lacking full
access. -/
def wNoAccess : World := ⟨none, [scNodeFull, scNodeNoAccess], []⟩

/-- C4: if every node's type is ClearPath-SC (basic or advanced) but some node
lacks full access, an Axis is constructed for every node, `AxisMain` is never
invoked, the bring-up decision is Rejected, and the exit code is -6. -/
theorem C4_rejectedAccess (w : World) (hopen : w.portsOpenErr = none)
    (htypes : ∀ n ∈ w.nodes, n.nodeType = NodeType.CLEARPATH_SC ∨
        n.nodeType = NodeType.CLEARPATH_SC_ADV)
    (hacc : ∃ n ∈ w.nodes, n.accessLevelIsFull = false) :
    (runLoop loopStart 0 w.nodes).listOfAxes = w.nodes.map (fun n => Axis.mk n) ∧
    (∀ i < w.nodes.length, Event.axisConstructed i ∈ (runMain 2 w).events) ∧
    (∀ j, Event.axisMainCall j ∉ (runMain 2 w).events) ∧
    bringupOk w = false ∧
    (runMain 2 w).exitCode = -6 := by
  have hA : w.nodes.all (fun n => !nodeTypeMismatch n) = true :=
    (all_typeOk_iff w.nodes).mpr htypes
  have hB : w.nodes.all (fun n => n.accessLevelIsFull) = false := by
    cases hBc : w.nodes.all (fun n => n.accessLevelIsFull)
    · rfl
    · rcases hacc with ⟨n, hn, hfa⟩
      have := (all_access_iff w.nodes).mp hBc n hn
      rw [hfa] at this
      exact Bool.noConfusion this
  have hb : bringupOk w = false := by rw [bringupOk_eq, hA, hB]; rfl
  have hng : (runLoop loopStart 0 w.nodes).nodeTypesGood = true := by
    rw [runLoop_nodeTypesGood, hA]
    simp [loopStart]
  have haxes : (runLoop loopStart 0 w.nodes).listOfAxes =
      w.nodes.map (fun n => Axis.mk n) := by
    have hgs := (runLoop_goodState w.nodes loopStart 0 rfl).1
    rw [goodTake_eq_self w.nodes hA] at hgs
    simpa [loopStart] using hgs
  rw [runMain_rejected w hopen hb]
  refine ⟨haxes, ?_, ?_, hb, ?_⟩
  · intro i hi
    show Event.axisConstructed i ∈
      ((initSysManager [w.nodes] none).events ++
        (runLoop loopStart 0 w.nodes).events) ++ teardownEvts (numAxes w)
    apply List.mem_append.mpr
    left
    apply List.mem_append.mpr
    right
    rw [runLoop_events]
    simp only [loopStart, List.nil_append]
    rw [axisConstructed_mem_loopEvts]
    refine ⟨rfl, Nat.zero_le i, ?_⟩
    rw [goodTake_eq_self w.nodes hA]
    omega
  · intro j hmem
    rcases List.mem_append.mp hmem with hmem | hmem
    rcases List.mem_append.mp hmem with hmem | hmem
    · exact not_in_initEvents w (Event.axisMainCall j) rfl hmem
    · exact not_in_loopEvents w (Event.axisMainCall j) rfl hmem
    · exact not_in_teardownEvts (numAxes w) (Event.axisMainCall j) rfl hmem
  · show (if (runLoop loopStart 0 w.nodes).nodeTypesGood = false
          then (-5 : Int) else -6) = -6
    rw [if_neg (fun hc => by rw [hng] at hc; exact Bool.noConfusion hc)]

/-- C4 (witness): the statement at `wNoAccess`. -/
theorem C4_witness :
    (runLoop loopStart 0 wNoAccess.nodes).listOfAxes =
        wNoAccess.nodes.map (fun n => Axis.mk n) ∧
    (∀ i < wNoAccess.nodes.length,
        Event.axisConstructed i ∈ (runMain 2 wNoAccess).events) ∧
    (∀ j, Event.axisMainCall j ∉ (runMain 2 wNoAccess).events) ∧
    bringupOk wNoAccess = false ∧
    (runMain 2 wNoAccess).exitCode = -6 :=
  C4_rejectedAccess wNoAccess rfl (by decide) (by decide)

/-- A sample structured driver error. -/
def errSample : MnErr := ⟨2, 5, "boom"⟩

/-- World whose single port fails to open with `errSample`. -/
def wPortFail : World := ⟨some errSample, [], []⟩

/-- C5: for any port list of length ≥ 1, if `PortsOpen` raises a structured
error, `InitializeSysManager` reports the port-setup diagnostic on both
streams and returns false without querying any node; `main` then returns -2,
never having evaluated a type or access check on any node. -/
theorem C5_portFail (portNodes : List (List INode)) (hlen : 1 ≤ portNodes.length)
    (w : World) (e : MnErr) (he : w.portsOpenErr = some e) :
    ((initSysManager portNodes (some e)).ok = false ∧
     (∀ p i, Event.nodeQueried p i ∉ (initSysManager portNodes (some e)).events) ∧
     Msg.portSetupDiag e ∈ (initSysManager portNodes (some e)).outMsgs ∧
     Msg.portSetupDiag e ∈ (initSysManager portNodes (some e)).errMsgs) ∧
    ((runMain 2 w).exitCode = -2 ∧
     (∀ p i, Event.nodeQueried p i ∉ (runMain 2 w).events) ∧
     (∀ i, Event.typeCheck i ∉ (runMain 2 w).events) ∧
     (∀ i, Event.accessCheck i ∉ (runMain 2 w).events) ∧
     Msg.portSetupDiag e ∈ (runMain 2 w).outMsgs ∧
     Msg.portSetupDiag e ∈ (runMain 2 w).errMsgs) := by
  constructor
  · rw [initSysManager_some]
    refine ⟨rfl, ?_, by simp, by simp⟩
    intro p i hmem
    simp at hmem
  · rw [runMain_initFail w e he]
    refine ⟨rfl, ?_, ?_, ?_, by simp, by simp⟩
    · intro p i hmem
      simp at hmem
    · intro i hmem
      simp at hmem
    · intro i hmem
      simp at hmem

/-- C5 (witness): the statement at a one-port list and `wPortFail`. -/
theorem C5_witness :
    1 ≤ ([[]] : List (List INode)).length ∧
    wPortFail.portsOpenErr = some errSample ∧
    (runMain 2 wPortFail).exitCode = -2 ∧
    Msg.portSetupDiag errSample ∈ (runMain 2 wPortFail).outMsgs :=
  ⟨by decide, rfl, ((C5_portFail [[]] (by decide) wPortFail errSample rfl).2).1,
    (((C5_portFail [[]] (by decide) wPortFail errSample rfl).2).2).2.2.2.1⟩

/-- C6: once some node has failed the type check — the first such node sits at
index `(goodTake nodes).length` — the access check is not evaluated for that
node or any later node, while the type check still runs for every node and the
type-mismatch diagnostic is printed for every mismatching node; access checks
did run for every node before the first failure. -/
theorem C6_shortCircuit (nodes : List INode)
    (h : ∃ n ∈ nodes, n.nodeType ≠ NodeType.CLEARPATH_SC ∧
        n.nodeType ≠ NodeType.CLEARPATH_SC_ADV) :
    (goodTake nodes).length < nodes.length ∧
    nodeTypeMismatch (nodes.getD (goodTake nodes).length default) = true ∧
    (∀ j, (goodTake nodes).length ≤ j →
      Event.accessCheck j ∉ (runLoop loopStart 0 nodes).events) ∧
    (∀ j < (goodTake nodes).length,
      Event.accessCheck j ∈ (runLoop loopStart 0 nodes).events) ∧
    (∀ j < nodes.length, Event.typeCheck j ∈ (runLoop loopStart 0 nodes).events) ∧
    (∀ j < nodes.length, nodeTypeMismatch (nodes.getD j default) = true →
      Event.typeMismatchDiag j ∈ (runLoop loopStart 0 nodes).events) := by
  have h' : ∃ n ∈ nodes, nodeTypeMismatch n = true := by
    rcases h with ⟨n, hn, h1, h2⟩
    exact ⟨n, hn, (nodeTypeMismatch_eq_true_iff n).mpr ⟨h1, h2⟩⟩
  have hlen := goodTake_length_lt nodes h'
  have hev : (runLoop loopStart 0 nodes).events = loopEvts 0 true nodes := by
    rw [runLoop_events]
    simp [loopStart]
  refine ⟨hlen, goodTake_first_bad nodes hlen, ?_, ?_, ?_, ?_⟩
  · intro j hj hmem
    rw [hev, accessCheck_mem_loopEvts] at hmem
    omega
  · intro j hj
    rw [hev, accessCheck_mem_loopEvts]
    exact ⟨rfl, Nat.zero_le j, by omega⟩
  · intro j hj
    rw [hev, typeCheck_mem_loopEvts]
    exact ⟨Nat.zero_le j, by omega⟩
  · intro j hj hmm
    rw [hev, typeMismatchDiag_mem_loopEvts]
    exact ⟨j, hj, by omega, hmm⟩

/-- C6 (witness): the statement at [scNodeFull, genericNode]. -/
theorem C6_witness :
    (goodTake [scNodeFull, genericNode]).length <
      ([scNodeFull, genericNode] : List INode).length ∧
    nodeTypeMismatch (([scNodeFull, genericNode] : List INode).getD
      (goodTake [scNodeFull, genericNode]).length default) = true ∧
    (∀ j, (goodTake [scNodeFull, genericNode]).length ≤ j →
      Event.accessCheck j ∉ (runLoop loopStart 0 [scNodeFull, genericNode]).events) ∧
    (∀ j < (goodTake [scNodeFull, genericNode]).length,
      Event.accessCheck j ∈ (runLoop loopStart 0 [scNodeFull, genericNode]).events) ∧
    (∀ j < ([scNodeFull, genericNode] : List INode).length,
      Event.typeCheck j ∈ (runLoop loopStart 0 [scNodeFull, genericNode]).events) ∧
    (∀ j < ([scNodeFull, genericNode] : List INode).length,
      nodeTypeMismatch (([scNodeFull, genericNode] : List INode).getD j default) = true →
      Event.typeMismatchDiag j ∈ (runLoop loopStart 0 [scNodeFull, genericNode]).events) :=
  C6_shortCircuit [scNodeFull, genericNode] (by decide)

/-- World whose single valid node's `AxisMain` throws the structured
`errSample`. -/
def wThrowStructured : World := ⟨none, [scNodeFull], [some (Thrown.structured errSample)]⟩

/-- C7: a structured driver error escaping `AxisMain` is caught at the top
level, its diagnostic is written to standard output and standard error, and
the exit code is -3; any other exception is caught by the catch-all, reported
to both streams, with exit code -4. -/
theorem C7_topLevelCatch (w : World) (hopen : w.portsOpenErr = none)
    (hok : bringupOk w = true) :
    (∀ es e2, axisMainRunFrom w.axisMainErr (numAxes w) 0 =
        (es, some (Thrown.structured e2)) →
      (runMain 2 w).exitCode = -3 ∧
      Msg.topStructuredDiag e2 ∈ (runMain 2 w).outMsgs ∧
      Msg.topStructuredDiag e2 ∈ (runMain 2 w).errMsgs) ∧
    (∀ es, axisMainRunFrom w.axisMainErr (numAxes w) 0 = (es, some Thrown.generic) →
      (runMain 2 w).exitCode = -4 ∧
      Msg.topGenericDiag ∈ (runMain 2 w).outMsgs ∧
      Msg.topGenericDiag ∈ (runMain 2 w).errMsgs) := by
  constructor
  · intro es e2 hr
    rw [runMain_thrownStructured w hopen hok es e2 hr]
    exact ⟨rfl, by simp, by simp⟩
  · intro es hr
    rw [runMain_thrownGeneric w hopen hok es hr]
    exact ⟨rfl, by simp, by simp⟩

/-- C7 (witness): the structured-error clause at `wThrowStructured`. -/
theorem C7_witness :
    (runMain 2 wThrowStructured).exitCode = -3 ∧
    Msg.topStructuredDiag errSample ∈ (runMain 2 wThrowStructured).outMsgs ∧
    Msg.topStructuredDiag errSample ∈ (runMain 2 wThrowStructured).errMsgs :=
  (C7_topLevelCatch wThrowStructured rfl (by decide)).1
    [Event.axisMainCall 0] errSample (by decide)

/-- C8 (counterexample): starting from the zero-initialised static state, a
first call with the clock at 5 s returns 5000 ms — the absolute wall-clock
time — not zero: `tNow` is computed and returned before `initial` has any
effect, so the claim "the first call returns zero" is false. -/
theorem C8_counterexample :
    runCoreTime ⟨0⟩ [ClockReading.ok 5 0] = [5000] ∧ (5000 : ℚ) ≠ 0 := by
  constructor
  · show (infcCoreTime ⟨0⟩ (ClockReading.ok 5 0)).2 ::
      runCoreTime (infcCoreTime ⟨0⟩ (ClockReading.ok 5 0)).1 [] = [5000]
    norm_num [infcCoreTime, clockMs, runCoreTime]
  · norm_num

/-- C8 (amended): the first successful call (with a nonzero reading)
establishes the epoch and returns the absolute wall-clock milliseconds; every
subsequent call returns the milliseconds elapsed since that first call (and a
failed clock read returns 0). -/
theorem C8_amended (s n : Int) (rest : List ClockReading)
    (h : clockMs s n ≠ 0) :
    runCoreTime ⟨0⟩ (ClockReading.ok s n :: rest) =
      clockMs s n :: rest.map (fun r =>
        match r with
        | ClockReading.ok s2 n2 => clockMs s2 n2 - clockMs s n
        | ClockReading.fail => 0) := by
  have hstep : infcCoreTime ⟨0⟩ (ClockReading.ok s n) =
      (⟨clockMs s n⟩, clockMs s n) := by
    simp [infcCoreTime]
  show (infcCoreTime ⟨0⟩ (ClockReading.ok s n)).2 ::
      runCoreTime (infcCoreTime ⟨0⟩ (ClockReading.ok s n)).1 rest = _
  rw [hstep]
  exact congrArg _ (runCoreTime_established (clockMs s n) h rest)

/-- C8 (witness): the amended statement at a concrete call sequence. -/
theorem C8_witness :
    clockMs 5 0 ≠ 0 ∧
    runCoreTime ⟨0⟩ [ClockReading.ok 5 0, ClockReading.ok 7 0, ClockReading.fail] =
      [5000, 2000, 0] := by
  refine ⟨by norm_num [clockMs], ?_⟩
  rw [C8_amended 5 0 [ClockReading.ok 7 0, ClockReading.fail] (by norm_num [clockMs])]
  norm_num [clockMs]

/-- C9: `infcErrCodeStrA` returns `MN_OK` iff the number of characters
`snprintf` would have produced equals `maxLen` exactly; in particular, when
the formatted string fits strictly inside the buffer (the normal success
case) it returns `MN_ERR_BADARG`. -/
theorem C9_errCodeStr (lookupCode maxLen : Nat) :
    (infcErrCodeStrA lookupCode maxLen = CnErrCode.MN_OK ↔
      snprintfWouldWrite lookupCode = maxLen) ∧
    (snprintfWouldWrite lookupCode < maxLen →
      infcErrCodeStrA lookupCode maxLen = CnErrCode.MN_ERR_BADARG) := by
  constructor
  · unfold infcErrCodeStrA
    by_cases h : snprintfWouldWrite lookupCode = maxLen
    · rw [if_pos h]
      exact ⟨fun _ => h, fun _ => rfl⟩
    · rw [if_neg h]
      exact ⟨fun hc => CnErrCode.noConfusion hc, fun hc => absurd hc h⟩
  · intro h
    unfold infcErrCodeStrA
    rw [if_neg (by omega)]

/-- C9 (witness): "Error: 0x0" has 10 characters, which fits strictly inside
a 12-byte buffer, and the call indeed returns `MN_ERR_BADARG`. -/
theorem C9_witness :
    snprintfWouldWrite 0 < 12 ∧ infcErrCodeStrA 0 12 = CnErrCode.MN_ERR_BADARG :=
  ⟨by decide, (C9_errCodeStr 0 12).2 (by decide)⟩

/-- C10: the bounds guard of `infcDbgDepth` is off by one — `cNum =
NET_CONTROLLER_MAX` is not rejected by `cNum > NET_CONTROLLER_MAX`, yet the
subsequent access `SysInventory[cNum]` indexes one past the end of an array
of size NET_CONTROLLER_MAX, for every value of the macro. -/
theorem C10_dbgDepth_offByOne (netControllerMax : Nat) :
    dbgDepthGuardRejects netControllerMax netControllerMax = false ∧
    ¬ dbgDepthIndexInBounds netControllerMax netControllerMax := by
  constructor
  · simp [dbgDepthGuardRejects]
  · simp [dbgDepthIndexInBounds]
